import Mathlib

/-!
# Well-Known DID Configuration — verification of the domain-linkage flow

Shallow embedding of `src/wellKnownDidConfiguration/wellKnownDidConfiguration.ts`:
`createCredential`, `getDomainLinkagePresentation` and `verifyDidConfigPresentation`,
together with the external-SDK collaborators they call (DID resolution, URL and DID
syntax validation, signature verification, root-hash computation), which are kept
abstract as an environment of functions.

Modelling conventions:
- TypeScript strings are Lean `String`s; a field that may be `undefined` at runtime
  is an `Option String`, with `none` standing for `undefined`.
- JavaScript truthiness of such a field (`!x`) is `falsyStr` (`undefined` and the
  empty string are falsy).
- A thrown `Error` is an `Except` failure; each throw site is mapped to a distinct
  constructor of `Err`, named after the error taxonomy of the spec.
- `Date.now()` / `new Date().toISOString()` are modelled as an explicit `now : Nat`
  (epoch milliseconds); `toISOString` is an injective encoding of the timestamp, so
  date fields carry the timestamp itself.
- `async`/`await` sequencing is ordinary sequential evaluation; `Promise.all` over
  the per-entry checks succeeds exactly when every entry check succeeds, and the model
  determinises the surfaced error to the first failing entry in list order (the JS
  runtime may surface the error of any failing entry, per the concurrency section of the spec).
-/

namespace WellKnownDidConfig

/-- JavaScript truthiness test `!x` for a string field that may be `undefined`:
`undefined` and the empty string are falsy, every other string is truthy. -/
def falsyStr : Option String → Bool
  | none => true
  | some s => s == ""

/-- One verification-method entry of a DID document (only its `id` fragment is read
by this module, e.g. `#key-assertion`). -/
structure DidKey where
  id : String
  deriving DecidableEq

/-- The part of a resolved DID document this module reads: its `uri` and its optional
`assertionMethod` key list (`undefined` is distinct from an empty list, and the code
treats the two differently). -/
structure DidDocument where
  uri : String
  assertionMethod : Option (List DidKey)
  deriving DecidableEq

/-- An `IClaim`: `cTypeHash`, the claim contents (of which only the `origin` property
is ever read, possibly absent), and the `owner` DID (possibly absent at runtime). -/
structure Claim where
  cTypeHash : String
  contentsOrigin : Option String
  owner : Option String
  deriving DecidableEq

/-- The claimer signature attached to an `ICredentialPresentation`:
`{keyUri, signature, challenge?}`. -/
structure ClaimerSignature where
  keyUri : String
  signature : String
  challenge : Option String
  deriving DecidableEq

/-- The part of an `ICredentialPresentation` this module reads: the claim, the
credential root hash, and the claimer signature. (The remaining fields —
`claimHashes`, `claimNonceMap`, `delegationId`, `legitimations` — are never read
by the functions under verification and are omitted.) -/
structure ICredentialPresentation where
  claim : Claim
  rootHash : String
  claimerSignature : ClaimerSignature
  deriving DecidableEq

/-- The `credentialSubject` object built at lines 109–112: the source object literal
is `{ id: didUri, origin }`; it has no `rootHash` property, so reading
`credentialSubject.rootHash` yields `undefined`. The field is modelled as an
`Option String` so that its runtime absence (`none`) is observable. -/
structure CredentialSubject where
  id : String
  origin : String
  rootHash : Option String
  deriving DecidableEq

/-- The self-signed proof object (`VC_TYPES.SelfSignedProof`) built at lines 130–136. -/
structure SelfSignedProof where
  type : String
  proofPurpose : String
  verificationMethod : String
  signature : String
  challenge : Option String
  deriving DecidableEq

/-- One entry of `linked_dids`: a `DomainLinkageCredential`. `context` models the
`@context` list; date fields carry the epoch-millisecond timestamp encoded by
`toISOString` (an injective encoding, see the file docstring). -/
structure DomainLinkageCredential where
  context : List String
  id : String
  issuer : String
  issuanceDate : Nat
  expirationDate : Nat
  type : List String
  credentialSubject : CredentialSubject
  proof : SelfSignedProof
  deriving DecidableEq

/-- The JSON-LD envelope `{"@context": ..., linked_dids: [...]}`
(`VerifiableDomainLinkagePresentation`). -/
structure VerifiableDomainLinkagePresentation where
  context : String
  linked_dids : List DomainLinkageCredential
  deriving DecidableEq

/-- The error taxonomy: each constructor corresponds to one throw site of the source
(the names the spec gives them). `originNotString` is the throw at line 102
(message `claim contents id is not a string`; the spec groups it under
`InvalidOriginError`).
`typeErrorUndefinedAccess` is not a deliberate throw: it is the JavaScript `TypeError`
raised at line 199 by `document?.assertionMethod?.[0].id` when `assertionMethod` is an
empty list (so `[0]` is `undefined` and `.id` is an access on `undefined`). -/
inductive Err where
  | didResolution
  | invalidOrigin
  | missingAssertionKey
  | malformedClaim
  | invalidDid
  | originNotString
  | signatureVerification
  | didMismatch
  | issuerMismatch
  | originMismatch
  | typeErrorUndefinedAccess
  deriving DecidableEq

/-- The external SDK collaborators, kept abstract:
- `resolve` is `Did.resolve` (`none` covers both a `null` result and a result with no
  `document`);
- `isUri` is `validUrl.isUri` viewed as a Boolean test of syntactic URL validity;
- `validDid` is `Did.validateUri` viewed as a Boolean test (the source call throws on
  an invalid DID, modelled as an `invalidDid` failure at the call site);
- `verifySig keyUri signature message` is `Did.verifyDidSignature` with
  `expectedVerificationMethod` set to `assertionMethod` viewed as a Boolean test; the
  `message` argument stands for `Utils.Crypto.coToUInt8 rootHash` (an injective
  transform folded into the abstract verifier);
- `rootHashOf` is the root hash computed by `Credential.fromClaim`. -/
structure Env where
  resolve : String → Option DidDocument
  isUri : String → Bool
  validDid : String → Bool
  verifySig : String → String → String → Bool
  rootHashOf : Claim → String

def DEFAULT_VERIFIABLECREDENTIAL_TYPE : String := "VerifiableCredential"

def KILT_VERIFIABLECREDENTIAL_TYPE : String := "KiltCredential2020"

def KILT_SELF_SIGNED_PROOF_TYPE : String := "KILTSelfSigned2020"

def DID_CONFIGURATION_CONTEXT : String :=
  "https://identity.foundation/.well-known/did-configuration/v1"

def DID_VC_CONTEXT : String := "https://www.w3.org/2018/credentials/v1"

/-- The hash of the fixed `ctypeDomainLinkage` schema (`CType.fromSchema` delegates
the hashing to the SDK; the concrete digest is the one the repository records in its
test fixture). -/
def ctypeDomainLinkageHash : String :=
  "0x39dc47bc933944ac66cfcf46bfdb66ca070b04a17cd8818eefb669928caf4d3e"

/-- Modelled from the spec: the IRI scheme head of the credential-id codec. The codec
itself (`toCredentialIRI` / `fromCredentialIRI`) lives in `@kiltprotocol/vc-export`,
outside `src/`; the spec describes it as a reversible URN-style encoding of the root
hash whose inverse "extracts the root hash back out of an id", and the source comment
at line 203 calls the decoding "stripping off the prefix". -/
def kiltCredentialIriBase : String := "kilt:cred:"

/-- Modelled from the spec: `toCredentialIRI` — derive the stable credential `id` by
prepending the scheme head to the root hash (spec §4.3 step 5). -/
def toCredentialIRI (rootHash : String) : String :=
  kiltCredentialIriBase ++ rootHash

/-- Modelled from the spec: `fromCredentialIRI` — the inverse transform, stripping the
scheme head off the `id` to recover the root hash (spec §4.4 step 8 and the source
comment at line 203). -/
def fromCredentialIRI (iri : String) : String :=
  String.mk (iri.data.drop kiltCredentialIriBase.length)

/-- `Claim.fromCTypeAndClaimContents(ctypeDomainLinkage, { origin }, owner)` (SDK):
builds the domain-linkage claim over the fixed schema with the given contents and
owner. -/
def claimFromCTypeAndContents (origin : String) (owner : String) : Claim :=
  { cTypeHash := ctypeDomainLinkageHash
    contentsOrigin := some origin
    owner := some owner }

/-- `document.assertionMethod?.[0]` as used in `createCredential` (line 71): optional
chaining yields `undefined` both when the list is absent and when it is empty. -/
def assertionKeyZero : Option (List DidKey) → Option DidKey
  | none => none
  | some keys => keys.head?

/-- `createCredential` (lines 42–83): resolve the DID (failing when no document is
found), validate the origin URL, build the domain-linkage claim owned by the `uri` of the
document, wrap it into a credential (whose root hash the SDK computes), require
a first assertion-method key, and return the presentation signed by `signCallback`
over the root hash (the challenge is the one the callback supplies, none here). -/
def createCredential (env : Env) (signCallback : String → ClaimerSignature)
    (origin : String) (didUri : String) : Except Err ICredentialPresentation :=
  match env.resolve didUri with
  | none => .error .didResolution
  | some document =>
    if !env.isUri origin then .error .invalidOrigin
    else
      let claim : Claim := claimFromCTypeAndContents origin document.uri
      let rootHash := env.rootHashOf claim
      match assertionKeyZero document.assertionMethod with
      | none => .error .missingAssertionKey
      | some _ =>
        .ok { claim := claim, rootHash := rootHash
              claimerSignature := signCallback rootHash }

/-- `getDomainLinkagePresentation` (lines 85–160). The `expirationDateArg` parameter
models the optional `expirationDate` argument; when absent, the default
`new Date(Date.now() + 1000 * 60 * 60 * 24 * 365 * 5).toISOString()` applies (the two
clock reads of the source — the default parameter and `issuanceDate` — are the same
`now` in this model). Checks, in source order: the line 92 guard throws
`malformedClaim` only when owner *and* origin are both falsy (`!owner && !origin`);
`Did.validateUri(owner)` throws on an absent or invalid owner; a non-string (absent)
origin throws `originNotString`; a syntactically invalid origin throws
`invalidOrigin`; then the claimer signature is verified against the root hash; finally
the envelope is emitted. -/
def getDomainLinkagePresentation (env : Env) (now : Nat)
    (credential : ICredentialPresentation) (expirationDateArg : Option Nat) :
    Except Err VerifiableDomainLinkagePresentation :=
  let expirationDate := expirationDateArg.getD (now + 1000 * 60 * 60 * 24 * 365 * 5)
  if falsyStr credential.claim.owner && falsyStr credential.claim.contentsOrigin then
    .error .malformedClaim
  else
    match credential.claim.owner with
    | none => .error .invalidDid
    | some didUri =>
      if !env.validDid didUri then .error .invalidDid
      else
        match credential.claim.contentsOrigin with
        | none => .error .originNotString
        | some origin =>
          if !env.isUri origin then .error .invalidOrigin
          else
            let credentialSubject : CredentialSubject :=
              { id := didUri, origin := origin, rootHash := none }
            let issuanceDate := now
            let claimerSignature := credential.claimerSignature
            let id := toCredentialIRI credential.rootHash
            if !env.verifySig claimerSignature.keyUri claimerSignature.signature
                credential.rootHash then
              .error .signatureVerification
            else
              .ok
                { context := DID_CONFIGURATION_CONTEXT
                  linked_dids := [
                    { context := [DID_VC_CONTEXT, DID_CONFIGURATION_CONTEXT]
                      id := id
                      issuer := didUri
                      issuanceDate := issuanceDate
                      expirationDate := expirationDate
                      type := [DEFAULT_VERIFIABLECREDENTIAL_TYPE,
                               "DomainLinkageCredential",
                               KILT_VERIFIABLECREDENTIAL_TYPE]
                      credentialSubject := credentialSubject
                      proof := { type := KILT_SELF_SIGNED_PROOF_TYPE
                                 proofPurpose := "assertionMethod"
                                 verificationMethod := claimerSignature.keyUri
                                 signature := claimerSignature.signature
                                 challenge := claimerSignature.challenge } }] }

/-- The per-entry check of `verifyDidConfigPresentation` (the async closure at lines
177–214), in source order: session-DID match, DID syntax, issuer match, origin match,
origin syntax, DID resolution, assertion-key presence (`assertionMethod?.[0].id`
raises a `TypeError` on an empty list, and the deliberate throw fires when the chain
yields a falsy value: an absent list or an empty key `id`), then signature
verification over the root hash recovered from the credential `id`. -/
def checkLinkedDid (env : Env) (didUri : String) (origin : String)
    (credential : DomainLinkageCredential) : Except Err Unit :=
  if !(didUri == credential.credentialSubject.id) then .error .didMismatch
  else if !env.validDid credential.credentialSubject.id then .error .invalidDid
  else if !(credential.issuer == credential.credentialSubject.id) then
    .error .issuerMismatch
  else if !(origin == credential.credentialSubject.origin) then .error .originMismatch
  else if !env.isUri origin then .error .invalidOrigin
  else
    match env.resolve didUri with
    | none => .error .didResolution
    | some document =>
      match document.assertionMethod with
      | none => .error .missingAssertionKey
      | some [] => .error .typeErrorUndefinedAccess
      | some (key :: _) =>
        if key.id == "" then .error .missingAssertionKey
        else
          let rootHash := fromCredentialIRI credential.id
          if !env.verifySig credential.proof.verificationMethod
              credential.proof.signature rootHash then
            .error .signatureVerification
          else .ok ()

/-- `asyncSome` (lines 162–167): despite its name it is `Promise.all` — it succeeds
exactly when the check succeeds on every entry. The model sequentialises the
concurrent evaluation; on failure it surfaces the first failing entry in list order
(the JS runtime may surface the error of any failing entry). -/
def asyncSome (credentials : List DomainLinkageCredential)
    (verify : DomainLinkageCredential → Except Err Unit) : Except Err Unit :=
  match credentials with
  | [] => .ok ()
  | c :: rest =>
    match verify c with
    | .error e => .error e
    | .ok _ => asyncSome rest verify

/-- `verifyDidConfigPresentation` (lines 169–215): run the per-entry check over all
`linked_dids` entries. -/
def verifyDidConfigPresentation (env : Env) (didUri : String)
    (domainLinkageCredential : VerifiableDomainLinkagePresentation)
    (origin : String) : Except Err Unit :=
  asyncSome domainLinkageCredential.linked_dids (checkLinkedDid env didUri origin)

/-! ## Shared helper lemmas -/

/-- The credential-id codec is a left-inverse pair: decoding an encoded root hash
recovers the hash. -/
theorem fromCredentialIRI_toCredentialIRI (h : String) :
    fromCredentialIRI (toCredentialIRI h) = h := by
  unfold fromCredentialIRI toCredentialIRI
  have hdata : (kiltCredentialIriBase ++ h).data =
      kiltCredentialIriBase.data ++ h.data := String.data_append ..
  have hlen : kiltCredentialIriBase.length = kiltCredentialIriBase.data.length := rfl
  rw [hdata, hlen, List.drop_left]

/-- `asyncSome` succeeds exactly when the per-entry check succeeds on every entry. -/
theorem asyncSome_ok_iff (verify : DomainLinkageCredential → Except Err Unit)
    (l : List DomainLinkageCredential) :
    asyncSome l verify = .ok () ↔ ∀ c ∈ l, verify c = .ok () := by
  induction l with
  | nil =>
    exact ⟨fun _ c hc => absurd hc (List.not_mem_nil c), fun _ => rfl⟩
  | cons a t ih =>
    unfold asyncSome
    cases hfa : verify a with
    | error e =>
      constructor
      · intro hcontra
        cases hcontra
      · intro hall
        have := hall a (List.mem_cons_self a t)
        rw [hfa] at this
        cases this
    | ok u =>
      cases u
      rw [show (match (Except.ok () : Except Err Unit) with
            | .error e => Except.error e
            | .ok _ => asyncSome t verify) = asyncSome t verify from rfl]
      constructor
      · intro hrest b hb
        rcases List.mem_cons.mp hb with hb | hb
        · rw [hb, hfa]
        · exact (ih.mp hrest) b hb
      · intro hall
        exact ih.mpr fun b hb => hall b (List.mem_cons_of_mem a hb)

/-- Success and shape inversion for `getDomainLinkagePresentation`: an `ok` result is
always the single-entry envelope built from the owner and origin of the claim, with the
credential-id encoding of the root hash, the issuance timestamp, and the supplied or
default expiration timestamp. -/
theorem getDomainLinkagePresentation_shape (env : Env) (now : Nat)
    (credential : ICredentialPresentation) (expirationDateArg : Option Nat)
    (p : VerifiableDomainLinkagePresentation)
    (hok : getDomainLinkagePresentation env now credential expirationDateArg = .ok p) :
    ∃ didUri origin,
      credential.claim.owner = some didUri ∧
      credential.claim.contentsOrigin = some origin ∧
      p = { context := DID_CONFIGURATION_CONTEXT
            linked_dids := [
              { context := [DID_VC_CONTEXT, DID_CONFIGURATION_CONTEXT]
                id := toCredentialIRI credential.rootHash
                issuer := didUri
                issuanceDate := now
                expirationDate :=
                  expirationDateArg.getD (now + 1000 * 60 * 60 * 24 * 365 * 5)
                type := [DEFAULT_VERIFIABLECREDENTIAL_TYPE,
                         "DomainLinkageCredential",
                         KILT_VERIFIABLECREDENTIAL_TYPE]
                credentialSubject :=
                  { id := didUri, origin := origin, rootHash := none }
                proof := { type := KILT_SELF_SIGNED_PROOF_TYPE
                           proofPurpose := "assertionMethod"
                           verificationMethod := credential.claimerSignature.keyUri
                           signature := credential.claimerSignature.signature
                           challenge := credential.claimerSignature.challenge } }] } := by
  unfold getDomainLinkagePresentation at hok
  cases howner : credential.claim.owner with
  | none =>
    rw [howner] at hok
    cases horig : credential.claim.contentsOrigin with
    | none => rw [horig] at hok; simp [falsyStr] at hok
    | some o =>
      rw [horig] at hok
      by_cases ho : o == ""
      · simp [falsyStr, ho] at hok
      · simp [falsyStr, ho] at hok
  | some d =>
    rw [howner] at hok
    cases horig : credential.claim.contentsOrigin with
    | none =>
      rw [horig] at hok
      by_cases hd : d == ""
      · simp [falsyStr, hd] at hok
      · simp only [falsyStr, hd, Bool.false_and, Bool.and_true, if_neg] at hok
        by_cases hv : env.validDid d <;> simp [hv] at hok
    | some o =>
      rw [horig] at hok
      refine ⟨d, o, rfl, rfl, ?_⟩
      by_cases hfd : falsyStr (some d) && falsyStr (some o)
      · simp [hfd] at hok
      · simp only [hfd, Bool.false_eq_true, if_neg, not_false_eq_true] at hok
        by_cases hv : env.validDid d
        · simp only [hv, Bool.not_true, Bool.false_eq_true, if_neg,
            not_false_eq_true] at hok
          by_cases hu : env.isUri o
          · simp only [hu, Bool.not_true, Bool.false_eq_true, if_neg,
              not_false_eq_true] at hok
            by_cases hs : env.verifySig credential.claimerSignature.keyUri
                credential.claimerSignature.signature credential.rootHash
            · simp only [hs, Bool.not_true, Bool.false_eq_true, if_neg,
                not_false_eq_true, Except.ok.injEq] at hok
              exact hok.symm
            · simp [hs] at hok
          · simp [hu] at hok
        · simp [hv] at hok

/-- Success characterization of `createCredential`: when the DID resolves to a
document with a first assertion-method key and the origin is a valid URL, the call
returns the presentation over the domain-linkage claim, signed over its root hash. -/
theorem createCredential_ok (env : Env) (signCallback : String → ClaimerSignature)
    (origin didUri : String) (document : DidDocument) (key : DidKey)
    (keys : List DidKey)
    (hres : env.resolve didUri = some document)
    (hkeys : document.assertionMethod = some (key :: keys))
    (horigin : env.isUri origin = true) :
    createCredential env signCallback origin didUri = .ok
      { claim := claimFromCTypeAndContents origin document.uri
        rootHash := env.rootHashOf (claimFromCTypeAndContents origin document.uri)
        claimerSignature :=
          signCallback
            (env.rootHashOf (claimFromCTypeAndContents origin document.uri)) } := by
  simp only [createCredential, hres, horigin, Bool.not_true, Bool.false_eq_true,
    if_false, hkeys, assertionKeyZero, List.head?]

/-- Success characterization of `getDomainLinkagePresentation`: when the claim has an
owner that is a valid DID, a non-empty origin that is a valid URL, and the claimer
signature verifies over the root hash, the call emits the single-entry envelope. -/
theorem getDomainLinkagePresentation_ok (env : Env) (now : Nat)
    (credential : ICredentialPresentation) (expirationDateArg : Option Nat)
    (didUri origin : String)
    (howner : credential.claim.owner = some didUri)
    (horig : credential.claim.contentsOrigin = some origin)
    (hne : origin ≠ "")
    (hdid : env.validDid didUri = true)
    (hu : env.isUri origin = true)
    (hsig : env.verifySig credential.claimerSignature.keyUri
      credential.claimerSignature.signature credential.rootHash = true) :
    getDomainLinkagePresentation env now credential expirationDateArg = .ok
      { context := DID_CONFIGURATION_CONTEXT
        linked_dids := [
          { context := [DID_VC_CONTEXT, DID_CONFIGURATION_CONTEXT]
            id := toCredentialIRI credential.rootHash
            issuer := didUri
            issuanceDate := now
            expirationDate :=
              expirationDateArg.getD (now + 1000 * 60 * 60 * 24 * 365 * 5)
            type := [DEFAULT_VERIFIABLECREDENTIAL_TYPE, "DomainLinkageCredential",
                     KILT_VERIFIABLECREDENTIAL_TYPE]
            credentialSubject := { id := didUri, origin := origin, rootHash := none }
            proof := { type := KILT_SELF_SIGNED_PROOF_TYPE
                       proofPurpose := "assertionMethod"
                       verificationMethod := credential.claimerSignature.keyUri
                       signature := credential.claimerSignature.signature
                       challenge := credential.claimerSignature.challenge } }] } := by
  have hfo : (origin == "") = false := beq_eq_false_iff_ne.mpr hne
  simp only [getDomainLinkagePresentation, howner, horig, falsyStr, hfo,
    Bool.and_false, Bool.false_eq_true, if_false, hdid, hu, hsig, Bool.not_true]

/-- Success characterization of the per-entry check: an entry whose subject id,
issuer and origin all match, over a resolvable DID with a non-empty first
assertion-method key id, and whose proof signature verifies over the decoded root
hash, passes. -/
theorem checkLinkedDid_ok (env : Env) (didUri origin : String)
    (c : DomainLinkageCredential) (document : DidDocument) (key : DidKey)
    (keys : List DidKey)
    (hid : c.credentialSubject.id = didUri)
    (hiss : c.issuer = didUri)
    (horig : c.credentialSubject.origin = origin)
    (hvalid : env.validDid didUri = true)
    (hu : env.isUri origin = true)
    (hres : env.resolve didUri = some document)
    (hkeys : document.assertionMethod = some (key :: keys))
    (hkeyid : key.id ≠ "")
    (hsig : env.verifySig c.proof.verificationMethod c.proof.signature
      (fromCredentialIRI c.id) = true) :
    checkLinkedDid env didUri origin c = .ok () := by
  simp only [checkLinkedDid, hid, hiss, horig, hres, hkeys, beq_self_eq_true,
    Bool.not_true, Bool.false_eq_true, if_false, hvalid, hu, hsig]
  simp [hkeyid]

/-! ## Concrete fixtures

A small concrete environment used by the closed evaluations: one DID (`didA`) that
resolves to a document with a single assertion-method key, one valid origin
(`originA`), a signature scheme the environment always accepts, and a fixed root
hash. -/

def didA : String := "did:kilt:4aaa"

def originA : String := "https://example.com"

def keyA : DidKey := { id := "#key-assertion" }

def docA : DidDocument := { uri := didA, assertionMethod := some [keyA] }

def envA : Env :=
  { resolve := fun d => if d == didA then some docA else none
    isUri := fun s => s == originA
    validDid := fun d => d == didA
    verifySig := fun _ _ _ => true
    rootHashOf := fun _ => "0xroot" }

def signA : String → ClaimerSignature := fun h =>
  { keyUri := didA ++ "#key-assertion", signature := "sig:" ++ h, challenge := none }

/-- The honest credential presentation for `didA`/`originA`. -/
def credA : ICredentialPresentation :=
  { claim := { cTypeHash := ctypeDomainLinkageHash
               contentsOrigin := some originA
               owner := some didA }
    rootHash := "0xroot"
    claimerSignature := signA "0xroot" }

/-- The linked-dids entry `getDomainLinkagePresentation envA 0 credA none` emits. -/
def entryA : DomainLinkageCredential :=
  { context := [DID_VC_CONTEXT, DID_CONFIGURATION_CONTEXT]
    id := toCredentialIRI "0xroot"
    issuer := didA
    issuanceDate := 0
    expirationDate := 1000 * 60 * 60 * 24 * 365 * 5
    type := [DEFAULT_VERIFIABLECREDENTIAL_TYPE, "DomainLinkageCredential",
             KILT_VERIFIABLECREDENTIAL_TYPE]
    credentialSubject := { id := didA, origin := originA, rootHash := none }
    proof := { type := KILT_SELF_SIGNED_PROOF_TYPE
               proofPurpose := "assertionMethod"
               verificationMethod := didA ++ "#key-assertion"
               signature := "sig:" ++ "0xroot"
               challenge := none } }

/-- The envelope assembled from `credA`. -/
def presA : VerifiableDomainLinkagePresentation :=
  { context := DID_CONFIGURATION_CONTEXT, linked_dids := [entryA] }

/-- `credA` with the origin property absent from the claim contents. -/
def credNoOriginA : ICredentialPresentation :=
  { claim := { cTypeHash := ctypeDomainLinkageHash
               contentsOrigin := none
               owner := some didA }
    rootHash := "0xroot"
    claimerSignature := signA "0xroot" }

/-- `credA` with the claim owner absent. -/
def credNoOwnerA : ICredentialPresentation :=
  { claim := { cTypeHash := ctypeDomainLinkageHash
               contentsOrigin := some originA
               owner := none }
    rootHash := "0xroot"
    claimerSignature := signA "0xroot" }

/-- `credA` with both the claim owner and the origin absent. -/
def credBothMissingA : ICredentialPresentation :=
  { claim := { cTypeHash := ctypeDomainLinkageHash
               contentsOrigin := none
               owner := none }
    rootHash := "0xroot"
    claimerSignature := signA "0xroot" }

/-- A DID document whose assertion-method list is present but empty. -/
def docEmptyKeysA : DidDocument := { uri := didA, assertionMethod := some [] }

/-- `envA`, except that `didA` resolves to a document with an empty assertion-method
list. -/
def envEmptyKeysA : Env :=
  { resolve := fun d => if d == didA then some docEmptyKeysA else none
    isUri := fun s => s == originA
    validDid := fun d => d == didA
    verifySig := fun _ _ _ => true
    rootHashOf := fun _ => "0xroot" }

/-- `entryA` re-issued by a different DID than its credential subject. -/
def entryBadIssuerA : DomainLinkageCredential :=
  { entryA with issuer := "did:kilt:4evil" }

/-! ## Claims -/

/-- C1. Round-trip: for every origin the URL checker accepts and every DID that
resolves to a document (with matching uri) exposing at least one assertion-method key
(with a non-empty id), under an honest signer whose signatures the environment
verifies, `createCredential` followed by `getDomainLinkagePresentation` on its result
followed by `verifyDidConfigPresentation` with the same DID and origin against the
assembled envelope succeeds without error. -/
theorem C1_round_trip (env : Env) (signCallback : String → ClaimerSignature)
    (origin didUri : String) (document : DidDocument) (key : DidKey)
    (keys : List DidKey) (now : Nat) (expirationDateArg : Option Nat)
    (hres : env.resolve didUri = some document)
    (huri : document.uri = didUri)
    (hkeys : document.assertionMethod = some (key :: keys))
    (hkeyid : key.id ≠ "")
    (horigin : env.isUri origin = true)
    (hne : origin ≠ "")
    (hdid : env.validDid didUri = true)
    (hsign : ∀ h, env.verifySig (signCallback h).keyUri (signCallback h).signature h
      = true) :
    ∃ credential presentation,
      createCredential env signCallback origin didUri = .ok credential ∧
      getDomainLinkagePresentation env now credential expirationDateArg =
        .ok presentation ∧
      verifyDidConfigPresentation env didUri presentation origin = .ok () := by
  subst huri
  refine ⟨_, _,
    createCredential_ok env signCallback origin document.uri document key keys hres
      hkeys horigin,
    getDomainLinkagePresentation_ok env now _ expirationDateArg document.uri origin
      rfl rfl hne hdid horigin (hsign _), ?_⟩
  refine (asyncSome_ok_iff _ _).mpr ?_
  intro c hc
  rw [List.mem_singleton] at hc
  subst hc
  refine checkLinkedDid_ok env document.uri origin _ document key keys rfl rfl rfl
    hdid horigin hres hkeys hkeyid ?_
  simp only [fromCredentialIRI_toCredentialIRI]
  exact hsign _

/-- C1 witness: the round trip at the concrete fixture. -/
theorem C1_round_trip_witness :
    ∃ credential presentation,
      createCredential envA signA originA didA = .ok credential ∧
      getDomainLinkagePresentation envA 0 credential none = .ok presentation ∧
      verifyDidConfigPresentation envA didA presentation originA = .ok () :=
  C1_round_trip envA signA originA didA docA keyA [] 0 none rfl rfl rfl
    (by decide) rfl (by decide) rfl (fun _ => rfl)

/-- C2 counterexample: the claim says either a missing origin or a missing owner is
sufficient for `MalformedClaimError`, but with only the origin missing the call fails
with the line 102 not-a-string error, and with only the owner missing it fails with
the `Did.validateUri` error — neither is `malformedClaim`. -/
theorem C2_counterexample :
    getDomainLinkagePresentation envA 0 credNoOriginA none =
      .error .originNotString ∧
    getDomainLinkagePresentation envA 0 credNoOwnerA none = .error .invalidDid ∧
    Err.originNotString ≠ Err.malformedClaim ∧
    Err.invalidDid ≠ Err.malformedClaim :=
  ⟨rfl, rfl, by decide, by decide⟩

/-- C2 (amended): `getDomainLinkagePresentation` fails with `malformedClaim` whenever
the claim owner and the claim contents origin are BOTH unset (JS-falsy) — the line 92
guard is a conjunction, so one missing field alone does not trigger it. -/
theorem C2_malformed_claim_when_both_missing (env : Env) (now : Nat)
    (credential : ICredentialPresentation) (expirationDateArg : Option Nat)
    (howner : falsyStr credential.claim.owner = true)
    (horigin : falsyStr credential.claim.contentsOrigin = true) :
    getDomainLinkagePresentation env now credential expirationDateArg =
      .error .malformedClaim := by
  unfold getDomainLinkagePresentation
  rw [howner, horigin]
  rfl

/-- C2 witness: both fields missing at the concrete fixture. -/
theorem C2_malformed_claim_when_both_missing_witness :
    getDomainLinkagePresentation envA 0 credBothMissingA none =
      .error .malformedClaim :=
  C2_malformed_claim_when_both_missing envA 0 credBothMissingA none rfl rfl

/-- C3 (evaluation at the failing input): the envelope assembled from `credA` has a
`credentialSubject` equal to `{id, origin}` with NO `rootHash` property (`none`),
whereas the claim — and the repository test — require
`rootHash = credential.rootHash` (`some "0xroot"` here). -/
theorem C3_credentialSubject_has_no_rootHash :
    (getDomainLinkagePresentation envA 0 credA none).map
        (fun p => p.linked_dids.map (fun c => c.credentialSubject)) =
      .ok [{ id := didA, origin := originA, rootHash := none }] ∧
    credA.rootHash = "0xroot" ∧
    (none : Option String) ≠ some credA.rootHash :=
  ⟨rfl, rfl, by decide⟩

/-- C4. `verifyDidConfigPresentation` succeeds iff every `linked_dids` entry passes
all of its per-entry checks; a single failing entry fails the whole call — there is
no partial-success outcome. -/
theorem C4_verify_ok_iff_all_entries_pass (env : Env) (didUri origin : String)
    (presentation : VerifiableDomainLinkagePresentation) :
    verifyDidConfigPresentation env didUri presentation origin = .ok () ↔
      ∀ credential ∈ presentation.linked_dids,
        checkLinkedDid env didUri origin credential = .ok () :=
  asyncSome_ok_iff _ _

/-- C5 (evaluation at the failing input): on an entry that passes the DID, issuer and
origin checks and whose DID resolves to a document with an EMPTY assertion-method
list, the call fails with the JavaScript `TypeError` from
`assertionMethod?.[0].id` — not with the `missingAssertionKey` error the claim (and
the deliberate throw at line 200) intends. -/
theorem C5_empty_assertion_list_raises_type_error :
    verifyDidConfigPresentation envEmptyKeysA didA presA originA =
      .error .typeErrorUndefinedAccess ∧
    Err.typeErrorUndefinedAccess ≠ Err.missingAssertionKey :=
  ⟨rfl, by decide⟩

/-- C6. For every `linked_dids` entry whose subject id equals the expected
(syntactically valid) DID, if the issuer differs from the subject id, the per-entry
check fails with `issuerMismatch` — whatever the signature verifier would say, since
`env.verifySig` is arbitrary here — and the whole presentation is rejected. -/
theorem C6_issuer_mismatch_rejected (env : Env) (didUri origin : String)
    (presentation : VerifiableDomainLinkagePresentation)
    (credential : DomainLinkageCredential)
    (hmem : credential ∈ presentation.linked_dids)
    (hid : credential.credentialSubject.id = didUri)
    (hvalid : env.validDid didUri = true)
    (hissuer : credential.issuer ≠ credential.credentialSubject.id) :
    checkLinkedDid env didUri origin credential = .error .issuerMismatch ∧
    verifyDidConfigPresentation env didUri presentation origin ≠ .ok () := by
  have hcheck : checkLinkedDid env didUri origin credential =
      .error .issuerMismatch := by
    unfold checkLinkedDid
    rw [hid] at hissuer
    simp [hid, hvalid, hissuer]
  refine ⟨hcheck, fun hok => ?_⟩
  have hall := (asyncSome_ok_iff _ _).mp hok credential hmem
  rw [hcheck] at hall
  cases hall

/-- C6 witness: a third-party-issued entry at the concrete fixture. -/
theorem C6_issuer_mismatch_rejected_witness :
    checkLinkedDid envA didA originA entryBadIssuerA = .error .issuerMismatch ∧
    verifyDidConfigPresentation envA didA
        { context := DID_CONFIGURATION_CONTEXT, linked_dids := [entryBadIssuerA] }
        originA ≠ .ok () :=
  C6_issuer_mismatch_rejected envA didA originA
    { context := DID_CONFIGURATION_CONTEXT, linked_dids := [entryBadIssuerA] }
    entryBadIssuerA (List.mem_singleton.mpr rfl) rfl rfl (by decide)

/-- C7. The credential-id codec is exactly reversible — decoding the IRI produced
from any root hash yields the hash back — and therefore the root hash the verifier
recovers from the id of any entry of an assembled envelope equals the rootHash of the
credential the envelope was assembled from. -/
theorem C7_credential_iri_reversible (env : Env) (now : Nat)
    (credential : ICredentialPresentation) (expirationDateArg : Option Nat)
    (p : VerifiableDomainLinkagePresentation)
    (hok : getDomainLinkagePresentation env now credential expirationDateArg =
      .ok p) :
    (∀ h : String, fromCredentialIRI (toCredentialIRI h) = h) ∧
    ∀ c ∈ p.linked_dids, fromCredentialIRI c.id = credential.rootHash := by
  refine ⟨fromCredentialIRI_toCredentialIRI, ?_⟩
  obtain ⟨d, o, _, _, hp⟩ :=
    getDomainLinkagePresentation_shape env now credential expirationDateArg p hok
  subst hp
  intro c hc
  rw [List.mem_singleton] at hc
  subst hc
  exact fromCredentialIRI_toCredentialIRI credential.rootHash

/-- C7 witness: the verifier recovers the root hash of `credA` from `entryA`. -/
theorem C7_credential_iri_reversible_witness :
    fromCredentialIRI entryA.id = credA.rootHash :=
  (C7_credential_iri_reversible envA 0 credA none presA rfl).2 entryA
    (List.mem_singleton.mpr rfl)

/-- C8. When the DID resolves to a document but the URL checker rejects the origin,
`createCredential` fails with `invalidOrigin` (origin validation follows DID
resolution, so resolution success is assumed). -/
theorem C8_invalid_origin_rejected (env : Env)
    (signCallback : String → ClaimerSignature) (origin didUri : String)
    (document : DidDocument)
    (hres : env.resolve didUri = some document)
    (horigin : env.isUri origin = false) :
    createCredential env signCallback origin didUri = .error .invalidOrigin := by
  unfold createCredential
  rw [hres, horigin]
  rfl

/-- C8 witness: a non-URL origin at the concrete fixture. -/
theorem C8_invalid_origin_rejected_witness :
    createCredential envA signA "not a url" didA = .error .invalidOrigin :=
  C8_invalid_origin_rejected envA signA "not a url" didA docA rfl rfl

/-- C9. When no expiration timestamp is supplied, every entry of the emitted envelope
has `expirationDate` equal to the issuance time plus five 365-day years in
milliseconds (`1000 * 60 * 60 * 24 * 365 * 5`). -/
theorem C9_default_expiration_five_years (env : Env) (now : Nat)
    (credential : ICredentialPresentation) (p : VerifiableDomainLinkagePresentation)
    (hok : getDomainLinkagePresentation env now credential none = .ok p) :
    ∀ c ∈ p.linked_dids,
      c.expirationDate = now + 1000 * 60 * 60 * 24 * 365 * 5 ∧
      c.issuanceDate = now := by
  obtain ⟨d, o, _, _, hp⟩ :=
    getDomainLinkagePresentation_shape env now credential none p hok
  subst hp
  intro c hc
  rw [List.mem_singleton] at hc
  subst hc
  exact ⟨rfl, rfl⟩

/-- C9 witness: the default expiration at the concrete fixture. -/
theorem C9_default_expiration_five_years_witness :
    entryA.expirationDate = 0 + 1000 * 60 * 60 * 24 * 365 * 5 ∧
    entryA.issuanceDate = 0 :=
  C9_default_expiration_five_years envA 0 credA presA rfl entryA
    (List.mem_singleton.mpr rfl)

/-- C10. A presentation whose `linked_dids` list is empty verifies vacuously: no
checks run and the call succeeds for every expected DID and origin. -/
theorem C10_empty_linked_dids_verifies (env : Env) (didUri origin ctx : String) :
    verifyDidConfigPresentation env didUri
      { context := ctx, linked_dids := [] } origin = .ok () := rfl

end WellKnownDidConfig
